import Mathlib

set_option linter.unusedVariables false

/-!
Shallow embedding of the book-review API (Express routes in
`src/routes/books.js`, which contains both the `/books` router and the
`/auth` router, plus `db.js` / server wiring in `src/unnamed/part_000`).

Modelling conventions:
* The relational store is a `DB` record of lists; each SQL statement of a
  handler becomes the corresponding list operation, in the handler's order.
* bcrypt hashes are modelled symbolically as the pair (plaintext, salt):
  `bcrypt.compare` succeeds exactly when the plaintext matches, and two
  hashes of the same password with different salts differ.
* JSON Web Tokens are modelled symbolically as (payload, exp, secret):
  `jwt.sign(payload, secret, expiresIn: ttl)` at clock `now` yields
  `⟨payload, now + ttl, secret⟩`, and `jwt.verify(t, secret)` at clock `now`
  succeeds exactly when the token's secret matches (signature check) and
  `now < t.exp` (expiry check). A tampered token is one whose `secret`
  field differs from the verifier's secret.
* A request handler is a pure function from the database state and the
  request's inputs to a `Response` paired with the new database state.
  `req.user.id` (set by the `authenticateToken` middleware on protected
  routes) enters the handlers as the explicit `userId` argument.
* Absent JSON body fields (`undefined` in JS) are `none : Option _`.
-/

namespace BookReviewApi

/-- A bcrypt hash, modelled symbolically as the hashed plaintext plus the
per-call random salt. -/
structure Hash where
  plain : String
  salt : Nat
deriving DecidableEq, Repr

/-- Model of `bcrypt.hash(plaintext, rounds)`; the salt is drawn fresh per
call, so it is an explicit parameter here. -/
def bcryptHash (plaintext : String) (salt : Nat) : Hash :=
  ⟨plaintext, salt⟩

/-- Model of `bcrypt.compare(plaintext, hash)`: true exactly when the
plaintext matches the hashed one. -/
def bcryptCompare (plaintext : String) (h : Hash) : Bool :=
  plaintext == h.plain

/-- A signed JSON Web Token: payload claims (key/value pairs), expiry
instant (seconds), and the secret it was signed with. -/
structure Token where
  payload : List (String × String)
  exp : Nat
  secret : String
deriving DecidableEq, Repr

/-- Model of `jwt.sign(payload, secret, \x7b expiresIn: ttl \x7d)` executed at
clock `now` (seconds): the expiry claim embedded in the token is
`now + ttl`. -/
def jwtSign (payload : List (String × String)) (secret : String)
    (now ttl : Nat) : Token :=
  ⟨payload, now + ttl, secret⟩

/-- Model of `jwt.verify(token, secret)` at clock `now`: returns the decoded
payload when the signature matches and the token is unexpired, otherwise
fails (in JS: throws). -/
def jwtVerify (t : Token) (secret : String) (now : Nat) :
    Option (List (String × String)) :=
  if t.secret = secret ∧ now < t.exp then some t.payload else none

/-- Look up a claim in a decoded token payload (JS property access on the
decoded object). -/
def lookupKey (k : String) : List (String × String) → Option String
  | [] => none
  | (k2, v) :: t => if k = k2 then some v else lookupKey k t

/-- A row of the `users` table: `users(id, email unique, password,
created_at)`; `created_at` plays no role in any handler and is omitted. -/
structure User where
  id : Nat
  email : String
  password : Hash
deriving DecidableEq, Repr

/-- A row of the `books` table. -/
structure Book where
  id : Nat
  title : String
  author : String
  genre : Option String
  description : Option String
deriving DecidableEq, Repr

/-- A row of the `reviews` table. `comment` is nullable. -/
structure Review where
  id : Nat
  book_id : Nat
  user_id : Nat
  rating : Nat
  comment : Option String
deriving DecidableEq, Repr

/-- The relational store, with the serial-column counters. -/
structure DB where
  users : List User
  books : List Book
  reviews : List Review
  nextUserId : Nat
  nextBookId : Nat
  nextReviewId : Nat
deriving DecidableEq, Repr

/-- The parts of an HTTP response the claims are about: status code, an
access token in the JSON body (when one is issued), and a `Set-Cookie:
refreshToken` header (when one is set). -/
structure Response where
  status : Nat
  accessToken : Option Token
  setCookie : Option Token
deriving DecidableEq, Repr

/-- `SELECT * FROM users WHERE email = $1` followed by taking `rows[0]`. -/
def findByEmail (users : List User) (e : String) : Option User :=
  users.find? (fun u => u.email == e)

/-- Handler of `POST /auth/signup` (`router.post('/signup')`). The request
body's `email` and `password` are `none` when the field is absent. With a
duplicate email it answers 400 before touching bcrypt. With a missing
password, `bcrypt.hash(undefined, 10)` throws, the catch block answers 500.
With a missing email the duplicate check matches nothing (`email = NULL` is
never true in SQL) and the `INSERT` violates the `NOT NULL` constraint on
`users.email`, so the catch block answers 500. The fresh salt of the
bcrypt call is the explicit `salt` argument. -/
def signup (db : DB) (salt : Nat) (email password : Option String) :
    Response × DB :=
  let dup := match email with
    | some e => db.users.any (fun u => u.email == e)
    | none => false
  if dup then (⟨400, none, none⟩, db)
  else
    match password with
    | none => (⟨500, none, none⟩, db)
    | some p =>
      match email with
      | none => (⟨500, none, none⟩, db)
      | some e =>
        let u : User := ⟨db.nextUserId, e, bcryptHash p salt⟩
        (⟨201, none, none⟩,
         { db with users := db.users ++ [u], nextUserId := db.nextUserId + 1 })

/-- Handler of `POST /auth/login` (`router.post('/login')`). Unknown email
(including an absent one, which matches no row) answers 400 `Invalid email`;
a stored user whose hash rejects the password answers 400 `Invalid
password`; on success it signs an access token (`expiresIn: '1m'`) and a
refresh token (`expiresIn: '7d'`), both with payload `\x7b email \x7d` and the
process-wide secret, sets the `refreshToken` cookie and answers 200 with
the access token. A missing password makes `bcrypt.compare` throw, mapped
to 500 by the catch block. -/
def login (db : DB) (secret : String) (now : Nat)
    (email password : Option String) : Response × DB :=
  match email with
  | none => (⟨400, none, none⟩, db)
  | some e =>
    match findByEmail db.users e with
    | none => (⟨400, none, none⟩, db)
    | some user =>
      match password with
      | none => (⟨500, none, none⟩, db)
      | some p =>
        if bcryptCompare p user.password then
          (⟨200,
            some (jwtSign [("email", e)] secret now 60),
            some (jwtSign [("email", e)] secret now (7 * 24 * 60 * 60))⟩,
           db)
        else (⟨400, none, none⟩, db)

/-- Handler of `POST /auth/refresh-token` (`router.post('/refresh-token')`).
No `refreshToken` cookie answers 401; a cookie `jwt.verify` rejects answers
403; otherwise it signs a fresh access token `jwt.sign(\x7b email:
decoded.email \x7d, secret, expiresIn: '1m')` and answers 200 with it. When
the decoded payload has no `email` claim, `decoded.email` is `undefined`
and `JSON.stringify` drops the field, leaving an empty payload. The
handler reads and writes no database state and sets no cookie. -/
def refreshToken (db : DB) (secret : String) (now : Nat)
    (cookie : Option Token) : Response × DB :=
  match cookie with
  | none => (⟨401, none, none⟩, db)
  | some t =>
    match jwtVerify t secret now with
    | none => (⟨403, none, none⟩, db)
    | some decoded =>
      let newPayload := match lookupKey "email" decoded with
        | some e => [("email", e)]
        | none => []
      (⟨200, some (jwtSign newPayload secret now 60), none⟩, db)

/-- Handler of `POST /books` (`router.post('/')`). `!title || !author`
rejects with 400; in JS both an absent field and the empty string are
falsy. `genre || null` and `description || null` turn a falsy value into
SQL `NULL`. -/
def addBook (db : DB) (title author genre description : Option String) :
    Response × DB :=
  let blank : Option String → Bool := fun s => match s with
    | none => true
    | some v => v == ""
  if blank title || blank author then (⟨400, none, none⟩, db)
  else
    match title, author with
    | some t, some a =>
      let norm : Option String → Option String := fun s => match s with
        | some v => if v == "" then none else some v
        | none => none
      let b : Book := ⟨db.nextBookId, t, a, norm genre, norm description⟩
      (⟨201, none, none⟩,
       { db with books := db.books ++ [b], nextBookId := db.nextBookId + 1 })
    | _, _ => (⟨400, none, none⟩, db)

/-- Handler of `POST /books/:id/reviews` (`router.post('/:id/reviews')`).
`userId` is `req.user.id` from the authenticate middleware. `!rating ||
rating < 1 || rating > 5` rejects with 400 (over `Nat`, the falsy case
`rating = 0` is subsumed by `rating < 1`); a missing book answers 404; an
existing review by the same user for the same book answers 400; otherwise
the review row is inserted and answered with 201. -/
def postReview (db : DB) (bookId userId rating : Nat)
    (comment : Option String) : Response × DB :=
  if rating < 1 || 5 < rating then (⟨400, none, none⟩, db)
  else if !(db.books.any (fun b => b.id == bookId)) then (⟨404, none, none⟩, db)
  else if db.reviews.any (fun r => r.book_id == bookId && r.user_id == userId)
  then (⟨400, none, none⟩, db)
  else
    let r : Review := ⟨db.nextReviewId, bookId, userId, rating, comment⟩
    (⟨201, none, none⟩,
     { db with reviews := db.reviews ++ [r],
               nextReviewId := db.nextReviewId + 1 })

/-- JS truthiness guard `rating && (rating < 1 || rating > 5)` of the
review-update handler: an absent rating and the falsy `0` skip the check. -/
def badRating : Option Nat → Bool
  | some r => !(r == 0) && (r < 1 || 5 < r)
  | none => false

/-- Handler of `PUT /books/reviews/:id` (`router.put('/reviews/:id')`).
`userId` is `req.user.id`; the handler receives it but never consults it:
the lookup is `SELECT * FROM reviews WHERE id = $1` alone. `rating ||
row.rating` keeps the old rating when the new one is absent or the falsy
`0`; `comment !== undefined ? comment : row.comment` replaces the comment
whenever the field is present, even with `null` (here `some none`). The
`UPDATE ... WHERE id = $3` rewrites every row with that id. -/
def putReview (db : DB) (reviewId userId : Nat) (rating : Option Nat)
    (comment : Option (Option String)) : Response × DB :=
  if badRating rating then (⟨400, none, none⟩, db)
  else
    match db.reviews.find? (fun r => r.id == reviewId) with
    | none => (⟨404, none, none⟩, db)
    | some row =>
      let newRating := match rating with
        | some r => if r == 0 then row.rating else r
        | none => row.rating
      let newComment := match comment with
        | some c => c
        | none => row.comment
      (⟨200, none, none⟩,
       { db with reviews := db.reviews.map (fun r =>
           if r.id == reviewId
           then { r with rating := newRating, comment := newComment }
           else r) })

/-- Handler of `DELETE /books/reviews/:id` (`router.delete('/reviews/:id')`).
`userId` is `req.user.id`; as in the update handler it is never consulted.
A missing review answers 404; otherwise `DELETE FROM reviews WHERE id = $1`
removes the rows with that id and the handler answers with `res.json`
(status 200). -/
def deleteReview (db : DB) (reviewId userId : Nat) : Response × DB :=
  match db.reviews.find? (fun r => r.id == reviewId) with
  | none => (⟨404, none, none⟩, db)
  | some _ =>
    (⟨200, none, none⟩,
     { db with reviews := db.reviews.filter (fun r => !(r.id == reviewId)) })

/-- The uniqueness invariant on the reviews store: at most one row per
`(book_id, user_id)` pair. -/
def ReviewsUnique (rs : List Review) : Prop :=
  rs.Pairwise (fun a b => ¬(a.book_id = b.book_id ∧ a.user_id = b.user_id))

/-- Appending a review that collides with no stored one preserves the
uniqueness invariant. -/
lemma reviewsUnique_append_of_no_collision (rs : List Review) (r : Review)
    (h : ReviewsUnique rs)
    (hn : ∀ x ∈ rs, ¬(x.book_id = r.book_id ∧ x.user_id = r.user_id)) :
    ReviewsUnique (rs ++ [r]) := by
  unfold ReviewsUnique at h ⊢
  rw [List.pairwise_append]
  refine ⟨h, List.pairwise_singleton _ _, ?_⟩
  intro a ha b hb
  rw [List.mem_singleton] at hb
  subst hb
  exact hn a ha

/-- A rewrite that keeps every row's `(book_id, user_id)` pair preserves the
uniqueness invariant. -/
lemma reviewsUnique_map (rs : List Review) (f : Review → Review)
    (hf : ∀ r, (f r).book_id = r.book_id ∧ (f r).user_id = r.user_id)
    (h : ReviewsUnique rs) : ReviewsUnique (rs.map f) := by
  unfold ReviewsUnique at h ⊢
  rw [List.pairwise_map]
  refine h.imp ?_
  intro a b hab
  rw [(hf a).1, (hf a).2, (hf b).1, (hf b).2]
  exact hab

/-- Deleting rows preserves the uniqueness invariant. -/
lemma reviewsUnique_filter (rs : List Review) (p : Review → Bool)
    (h : ReviewsUnique rs) : ReviewsUnique (rs.filter p) :=
  List.Pairwise.sublist (List.filter_sublist _) h

/-- C1: the review update and delete handlers look the review up by its id
alone and never consult the acting user's identity, so for a fixed review
id and request body, two runs that differ only in the authenticated
requester perform the same mutation (indeed, the same full response and
state). -/
theorem review_mutation_ignores_requester (db : DB) (reviewId u1 u2 : Nat)
    (rating : Option Nat) (comment : Option (Option String)) :
    putReview db reviewId u1 rating comment =
      putReview db reviewId u2 rating comment ∧
    deleteReview db reviewId u1 = deleteReview db reviewId u2 :=
  ⟨rfl, rfl⟩

/-- C9: the refresh handler performs no rotation: it never sets a cookie
and never changes the stored state, so its only success output is the new
access token in the JSON body. -/
theorem refresh_no_rotation (db : DB) (secret : String) (now : Nat)
    (cookie : Option Token) :
    (refreshToken db secret now cookie).1.setCookie = none ∧
    (refreshToken db secret now cookie).2 = db := by
  cases cookie with
  | none => exact ⟨rfl, rfl⟩
  | some t =>
    cases h : jwtVerify t secret now <;> simp [refreshToken, h]

/-- C2: refresh with a valid, unexpired cookie answers 200 with a fresh
access token whose email claim equals the presented refresh token's email
claim; with no cookie it answers 401; with a tampered (wrong-signature) or
expired cookie it answers 403. -/
theorem refresh_status_matrix (db db2 db3 : DB) (secret : String) (now : Nat)
    (t tbad : Token)
    (hsig : t.secret = secret) (hexp : now < t.exp)
    (hbad : tbad.secret ≠ secret ∨ tbad.exp ≤ now) :
    ((refreshToken db secret now (some t)).1.status = 200 ∧
     (∃ tok, (refreshToken db secret now (some t)).1.accessToken = some tok ∧
        lookupKey "email" tok.payload = lookupKey "email" t.payload)) ∧
    (refreshToken db2 secret now none).1.status = 401 ∧
    (refreshToken db3 secret now (some tbad)).1.status = 403 := by
  refine ⟨?_, rfl, ?_⟩
  · have hv : jwtVerify t secret now = some t.payload := by
      unfold jwtVerify
      rw [if_pos ⟨hsig, hexp⟩]
    simp only [refreshToken, hv]
    refine ⟨by simp, ?_⟩
    cases h : lookupKey "email" t.payload with
    | none => exact ⟨_, rfl, by simp [h, jwtSign, lookupKey]⟩
    | some e => exact ⟨_, rfl, by simp [h, jwtSign, lookupKey]⟩
  · have hv : jwtVerify tbad secret now = none := by
      unfold jwtVerify
      rw [if_neg]
      rintro ⟨h1, h2⟩
      rcases hbad with hb | hb
      · exact hb h1
      · exact absurd h2 (not_lt.mpr hb)
    simp only [refreshToken, hv]

/-- Closed instance of `refresh_status_matrix` at a concrete token, clock
and database states. -/
theorem refresh_status_matrix_witness :
    ((refreshToken ⟨[], [], [], 0, 0, 0⟩ "s" 5
        (some ⟨[("email", "a@x.com")], 10, "s"⟩)).1.status = 200 ∧
     (∃ tok, (refreshToken ⟨[], [], [], 0, 0, 0⟩ "s" 5
        (some ⟨[("email", "a@x.com")], 10, "s"⟩)).1.accessToken = some tok ∧
        lookupKey "email" tok.payload =
          lookupKey "email" [("email", "a@x.com")])) ∧
    (refreshToken ⟨[], [], [], 0, 0, 0⟩ "s" 5 none).1.status = 401 ∧
    (refreshToken ⟨[], [], [], 0, 0, 0⟩ "s" 5
        (some ⟨[("email", "a@x.com")], 10, "bad"⟩)).1.status = 403 :=
  refresh_status_matrix ⟨[], [], [], 0, 0, 0⟩ ⟨[], [], [], 0, 0, 0⟩
    ⟨[], [], [], 0, 0, 0⟩ "s" 5 ⟨[("email", "a@x.com")], 10, "s"⟩
    ⟨[("email", "a@x.com")], 10, "bad"⟩ rfl (by decide) (by decide)

/-- C3: for a stored user, login with a password that the stored hash
rejects answers 400, issues no access token, sets no refresh cookie, and
leaves the stored state unchanged. -/
theorem login_wrong_password (db : DB) (secret : String) (now : Nat)
    (e p : String) (u : User)
    (hfind : findByEmail db.users e = some u)
    (hbad : bcryptCompare p u.password = false) :
    (login db secret now (some e) (some p)).1.status = 400 ∧
    (login db secret now (some e) (some p)).1.accessToken = none ∧
    (login db secret now (some e) (some p)).1.setCookie = none ∧
    (login db secret now (some e) (some p)).2 = db := by
  simp [login, hfind, hbad]

/-- Closed instance of `login_wrong_password` at a concrete store and
password. -/
theorem login_wrong_password_witness :
    (login ⟨[⟨1, "a@x.com", ⟨"p1", 0⟩⟩], [], [], 2, 0, 0⟩ "s" 0
        (some "a@x.com") (some "wrong")).1.status = 400 ∧
    (login ⟨[⟨1, "a@x.com", ⟨"p1", 0⟩⟩], [], [], 2, 0, 0⟩ "s" 0
        (some "a@x.com") (some "wrong")).1.accessToken = none ∧
    (login ⟨[⟨1, "a@x.com", ⟨"p1", 0⟩⟩], [], [], 2, 0, 0⟩ "s" 0
        (some "a@x.com") (some "wrong")).1.setCookie = none ∧
    (login ⟨[⟨1, "a@x.com", ⟨"p1", 0⟩⟩], [], [], 2, 0, 0⟩ "s" 0
        (some "a@x.com") (some "wrong")).2 =
      ⟨[⟨1, "a@x.com", ⟨"p1", 0⟩⟩], [], [], 2, 0, 0⟩ :=
  login_wrong_password ⟨[⟨1, "a@x.com", ⟨"p1", 0⟩⟩], [], [], 2, 0, 0⟩ "s" 0
    "a@x.com" "wrong" ⟨1, "a@x.com", ⟨"p1", 0⟩⟩ (by decide) (by decide)

/-- C6: the refresh handler's response depends only on the presented cookie,
the secret and the clock — never on the stored state, which it also leaves
unchanged — and a refresh token whose signature matches stays accepted at
every instant before its expiry, with no state to invalidate it early. -/
theorem refresh_depends_only_on_token (db : DB) (secret : String)
    (now : Nat) (t : Token)
    (hsig : t.secret = secret) (hexp : now < t.exp) :
    (∀ (db1 db2 : DB) (cookie : Option Token),
      (refreshToken db1 secret now cookie).1 =
        (refreshToken db2 secret now cookie).1) ∧
    (∀ (dbx : DB) (s : String) (n : Nat) (cookie : Option Token),
      (refreshToken dbx s n cookie).2 = dbx) ∧
    (refreshToken db secret now (some t)).1.status = 200 := by
  refine ⟨?_, ?_, ?_⟩
  · intro db1 db2 cookie
    cases cookie with
    | none => rfl
    | some t2 => cases h : jwtVerify t2 secret now <;> simp [refreshToken, h]
  · intro dbx s n cookie
    cases cookie with
    | none => rfl
    | some t2 => cases h : jwtVerify t2 s n <;> simp [refreshToken, h]
  · have hv : jwtVerify t secret now = some t.payload := by
      unfold jwtVerify
      rw [if_pos ⟨hsig, hexp⟩]
    simp [refreshToken, hv]

/-- Closed instance of `refresh_depends_only_on_token` at a concrete token
within its 7-day lifetime. -/
theorem refresh_depends_only_on_token_witness :
    (∀ (db1 db2 : DB) (cookie : Option Token),
      (refreshToken db1 "s" 604799 cookie).1 =
        (refreshToken db2 "s" 604799 cookie).1) ∧
    (∀ (dbx : DB) (s : String) (n : Nat) (cookie : Option Token),
      (refreshToken dbx s n cookie).2 = dbx) ∧
    (refreshToken ⟨[], [], [], 0, 0, 0⟩ "s" 604799
        (some ⟨[("email", "a@x.com")], 604800, "s"⟩)).1.status = 200 :=
  refresh_depends_only_on_token ⟨[], [], [], 0, 0, 0⟩ "s" 604799
    ⟨[("email", "a@x.com")], 604800, "s"⟩ rfl (by decide)

/-- C7: a successful login issues an access token expiring exactly 60
seconds after issuance and a refresh token expiring exactly 7 days after
issuance, both embedding the email identity claim and signed with the
process-wide secret; a successful refresh likewise issues a 60-second
access token signed with that secret. -/
theorem token_lifetimes (db db2 : DB) (secret : String) (now now2 : Nat)
    (e p : String) (u : User) (t : Token)
    (hfind : findByEmail db.users e = some u)
    (hok : bcryptCompare p u.password = true)
    (hsig : t.secret = secret) (hexp : now2 < t.exp) :
    (∃ tok, (login db secret now (some e) (some p)).1.accessToken = some tok ∧
      tok.exp = now + 60 ∧ lookupKey "email" tok.payload = some e ∧
      tok.secret = secret) ∧
    (∃ rtok, (login db secret now (some e) (some p)).1.setCookie = some rtok ∧
      rtok.exp = now + 7 * 24 * 60 * 60 ∧
      lookupKey "email" rtok.payload = some e ∧ rtok.secret = secret) ∧
    (∃ tok2,
      (refreshToken db2 secret now2 (some t)).1.accessToken = some tok2 ∧
      tok2.exp = now2 + 60 ∧ tok2.secret = secret) := by
  refine ⟨?_, ?_, ?_⟩
  · refine ⟨jwtSign [("email", e)] secret now 60, ?_, rfl, ?_, rfl⟩
    · simp [login, hfind, hok]
    · simp [lookupKey]
  · refine ⟨jwtSign [("email", e)] secret now (7 * 24 * 60 * 60), ?_, rfl, ?_, rfl⟩
    · simp [login, hfind, hok]
    · simp [lookupKey]
  · have hv : jwtVerify t secret now2 = some t.payload := by
      unfold jwtVerify
      rw [if_pos ⟨hsig, hexp⟩]
    simp only [refreshToken, hv]
    exact ⟨_, rfl, rfl, rfl⟩

/-- Closed instance of `token_lifetimes` at a concrete store, credentials
and refresh token. -/
theorem token_lifetimes_witness :
    (∃ tok, (login ⟨[⟨1, "a@x.com", ⟨"p1", 0⟩⟩], [], [], 2, 0, 0⟩ "s" 100
        (some "a@x.com") (some "p1")).1.accessToken = some tok ∧
      tok.exp = 100 + 60 ∧ lookupKey "email" tok.payload = some "a@x.com" ∧
      tok.secret = "s") ∧
    (∃ rtok, (login ⟨[⟨1, "a@x.com", ⟨"p1", 0⟩⟩], [], [], 2, 0, 0⟩ "s" 100
        (some "a@x.com") (some "p1")).1.setCookie = some rtok ∧
      rtok.exp = 100 + 7 * 24 * 60 * 60 ∧
      lookupKey "email" rtok.payload = some "a@x.com" ∧ rtok.secret = "s") ∧
    (∃ tok2, (refreshToken ⟨[], [], [], 0, 0, 0⟩ "s" 3
        (some ⟨[("email", "a@x.com")], 10, "s"⟩)).1.accessToken = some tok2 ∧
      tok2.exp = 3 + 60 ∧ tok2.secret = "s") :=
  token_lifetimes ⟨[⟨1, "a@x.com", ⟨"p1", 0⟩⟩], [], [], 2, 0, 0⟩
    ⟨[], [], [], 0, 0, 0⟩ "s" 100 3 "a@x.com" "p1" ⟨1, "a@x.com", ⟨"p1", 0⟩⟩
    ⟨[("email", "a@x.com")], 10, "s"⟩ (by decide) (by decide) rfl (by decide)

/-- C4: signup with an email that is not yet stored answers 201 and stores
the user; repeating the signup with that email answers 400 and inserts
nothing; and a login against the post-signup store with the same
credentials answers 200 with an access token. -/
theorem signup_then_login (db : DB) (salt salt2 : Nat) (secret : String)
    (now : Nat) (e p p2 : String)
    (hfresh : ∀ u ∈ db.users, u.email ≠ e) :
    (signup db salt (some e) (some p)).1.status = 201 ∧
    (signup (signup db salt (some e) (some p)).2 salt2 (some e)
        (some p2)).1.status = 400 ∧
    (signup (signup db salt (some e) (some p)).2 salt2 (some e)
        (some p2)).2 = (signup db salt (some e) (some p)).2 ∧
    (login (signup db salt (some e) (some p)).2 secret now (some e)
        (some p)).1.status = 200 ∧
    ((login (signup db salt (some e) (some p)).2 secret now (some e)
        (some p)).1.accessToken).isSome = true := by
  have hdup : db.users.any (fun u => u.email == e) = false := by
    rw [List.any_eq_false]
    intro u hu
    simpa using hfresh u hu
  have h1 : signup db salt (some e) (some p) =
      (⟨201, none, none⟩,
       { db with users := db.users ++ [⟨db.nextUserId, e, bcryptHash p salt⟩],
                 nextUserId := db.nextUserId + 1 }) := by
    simp [signup, hdup]
  have hfind : findByEmail
      (db.users ++ [⟨db.nextUserId, e, ⟨p, salt⟩⟩]) e =
      some ⟨db.nextUserId, e, ⟨p, salt⟩⟩ := by
    unfold findByEmail
    rw [List.find?_append]
    have hnone : db.users.find? (fun u => u.email == e) = none := by
      rw [List.find?_eq_none]
      intro u hu
      simpa using hfresh u hu
    rw [hnone]
    simp [List.find?]
  refine ⟨by rw [h1], ?_, ?_, ?_, ?_⟩
  · rw [h1]
    simp [signup]
  · rw [h1]
    simp [signup]
  · rw [h1]
    simp [login, hfind, bcryptCompare, bcryptHash]
  · rw [h1]
    simp [login, hfind, bcryptCompare, bcryptHash]

/-- Closed instance of `signup_then_login` starting from the empty store. -/
theorem signup_then_login_witness :
    (signup ⟨[], [], [], 0, 0, 0⟩ 0 (some "a@x.com") (some "p1")).1.status
      = 201 ∧
    (signup (signup ⟨[], [], [], 0, 0, 0⟩ 0 (some "a@x.com")
        (some "p1")).2 1 (some "a@x.com") (some "p2")).1.status = 400 ∧
    (signup (signup ⟨[], [], [], 0, 0, 0⟩ 0 (some "a@x.com")
        (some "p1")).2 1 (some "a@x.com") (some "p2")).2 =
      (signup ⟨[], [], [], 0, 0, 0⟩ 0 (some "a@x.com") (some "p1")).2 ∧
    (login (signup ⟨[], [], [], 0, 0, 0⟩ 0 (some "a@x.com")
        (some "p1")).2 "s" 0 (some "a@x.com") (some "p1")).1.status = 200 ∧
    ((login (signup ⟨[], [], [], 0, 0, 0⟩ 0 (some "a@x.com")
        (some "p1")).2 "s" 0 (some "a@x.com")
        (some "p1")).1.accessToken).isSome = true :=
  signup_then_login ⟨[], [], [], 0, 0, 0⟩ 0 1 "s" 0 "a@x.com" "p1" "p2"
    (by simp)

/-- C5: a duplicate (book, user) review submission answers 400 and changes
nothing, and every modelled operation of the API preserves the invariant
that the reviews store holds at most one row per (book_id, user_id) pair. -/
theorem review_uniqueness (db : DB) (bookId userId rating : Nat)
    (comment : Option String)
    (hr1 : 1 ≤ rating) (hr5 : rating ≤ 5)
    (hbook : db.books.any (fun b => b.id == bookId) = true)
    (hdup : ∃ r ∈ db.reviews, r.book_id = bookId ∧ r.user_id = userId)
    (hinv : ReviewsUnique db.reviews) :
    ((postReview db bookId userId rating comment).1.status = 400 ∧
     (postReview db bookId userId rating comment).2 = db) ∧
    (∀ (bid uid rt : Nat) (c : Option String),
      ReviewsUnique (postReview db bid uid rt c).2.reviews) ∧
    (∀ (rid uid : Nat) (rt : Option Nat) (c : Option (Option String)),
      ReviewsUnique (putReview db rid uid rt c).2.reviews) ∧
    (∀ rid uid : Nat, ReviewsUnique (deleteReview db rid uid).2.reviews) ∧
    (∀ (salt : Nat) (em pw : Option String),
      (signup db salt em pw).2.reviews = db.reviews) ∧
    (∀ (s : String) (n : Nat) (em pw : Option String),
      (login db s n em pw).2.reviews = db.reviews) ∧
    (∀ (s : String) (n : Nat) (ck : Option Token),
      (refreshToken db s n ck).2.reviews = db.reviews) ∧
    (∀ ti au ge de : Option String,
      (addBook db ti au ge de).2.reviews = db.reviews) := by
  have hdupb : db.reviews.any
      (fun r => r.book_id == bookId && r.user_id == userId) = true := by
    rw [List.any_eq_true]
    obtain ⟨r, hrmem, h1, h2⟩ := hdup
    exact ⟨r, hrmem, by simp [h1, h2]⟩
  refine ⟨?_, ?_, ?_, ?_, ?_, ?_, ?_, ?_⟩
  · have g1 : ¬ rating < 1 := by omega
    have g2 : ¬ 5 < rating := by omega
    simp [postReview, g1, g2, hbook, hdupb]
  · intro bid uid rt c
    simp only [postReview]
    split
    · exact hinv
    · split
      · exact hinv
      · split
        · exact hinv
        · rename_i hno
          show ReviewsUnique (db.reviews ++ [⟨db.nextReviewId, bid, uid, rt, c⟩])
          apply reviewsUnique_append_of_no_collision _ _ hinv
          intro x hx hcol
          apply hno
          rw [List.any_eq_true]
          exact ⟨x, hx, by simp [hcol.1, hcol.2]⟩
  · intro rid uid rt c
    simp only [putReview]
    split
    · exact hinv
    · cases hfind : db.reviews.find? (fun r => r.id == rid) with
      | none =>
        simp only [hfind]
        exact hinv
      | some row =>
        simp only [hfind]
        apply reviewsUnique_map _ _ _ hinv
        intro r
        dsimp only
        split <;> exact ⟨rfl, rfl⟩
  · intro rid uid
    simp only [deleteReview]
    cases hfind : db.reviews.find? (fun r => r.id == rid) with
    | none =>
      simp only [hfind]
      exact hinv
    | some row =>
      simp only [hfind]
      exact reviewsUnique_filter _ _ hinv
  · intro salt em pw
    simp only [signup]
    split
    · rfl
    · cases pw with
      | none => rfl
      | some p => cases em <;> rfl
  · intro s n em pw
    simp only [login]
    cases em with
    | none => rfl
    | some e2 =>
      cases hfind : findByEmail db.users e2 with
      | none => simp [hfind]
      | some u =>
        cases pw with
        | none => simp [hfind]
        | some p =>
          by_cases hc : bcryptCompare p u.password = true <;> simp [hfind, hc]
  · intro s n ck
    cases ck with
    | none => rfl
    | some t => cases hv : jwtVerify t s n <;> simp [refreshToken, hv]
  · intro ti au ge de
    simp only [addBook]
    split
    · rfl
    · split
      · rfl
      · rfl

/-- Closed instance of `review_uniqueness` at a store holding one book and
one review. -/
theorem review_uniqueness_witness :
    ((postReview ⟨[], [⟨1, "T", "A", none, none⟩], [⟨1, 1, 7, 5, none⟩],
        0, 2, 2⟩ 1 7 4 none).1.status = 400 ∧
     (postReview ⟨[], [⟨1, "T", "A", none, none⟩], [⟨1, 1, 7, 5, none⟩],
        0, 2, 2⟩ 1 7 4 none).2 =
       ⟨[], [⟨1, "T", "A", none, none⟩], [⟨1, 1, 7, 5, none⟩], 0, 2, 2⟩) ∧
    (∀ (bid uid rt : Nat) (c : Option String),
      ReviewsUnique (postReview ⟨[], [⟨1, "T", "A", none, none⟩],
        [⟨1, 1, 7, 5, none⟩], 0, 2, 2⟩ bid uid rt c).2.reviews) ∧
    (∀ (rid uid : Nat) (rt : Option Nat) (c : Option (Option String)),
      ReviewsUnique (putReview ⟨[], [⟨1, "T", "A", none, none⟩],
        [⟨1, 1, 7, 5, none⟩], 0, 2, 2⟩ rid uid rt c).2.reviews) ∧
    (∀ rid uid : Nat, ReviewsUnique (deleteReview ⟨[],
        [⟨1, "T", "A", none, none⟩], [⟨1, 1, 7, 5, none⟩],
        0, 2, 2⟩ rid uid).2.reviews) ∧
    (∀ (salt : Nat) (em pw : Option String),
      (signup ⟨[], [⟨1, "T", "A", none, none⟩], [⟨1, 1, 7, 5, none⟩],
        0, 2, 2⟩ salt em pw).2.reviews = [⟨1, 1, 7, 5, none⟩]) ∧
    (∀ (s : String) (n : Nat) (em pw : Option String),
      (login ⟨[], [⟨1, "T", "A", none, none⟩], [⟨1, 1, 7, 5, none⟩],
        0, 2, 2⟩ s n em pw).2.reviews = [⟨1, 1, 7, 5, none⟩]) ∧
    (∀ (s : String) (n : Nat) (ck : Option Token),
      (refreshToken ⟨[], [⟨1, "T", "A", none, none⟩], [⟨1, 1, 7, 5, none⟩],
        0, 2, 2⟩ s n ck).2.reviews = [⟨1, 1, 7, 5, none⟩]) ∧
    (∀ ti au ge de : Option String,
      (addBook ⟨[], [⟨1, "T", "A", none, none⟩], [⟨1, 1, 7, 5, none⟩],
        0, 2, 2⟩ ti au ge de).2.reviews = [⟨1, 1, 7, 5, none⟩]) :=
  review_uniqueness ⟨[], [⟨1, "T", "A", none, none⟩], [⟨1, 1, 7, 5, none⟩],
      0, 2, 2⟩ 1 7 4 none (by decide) (by decide) (by decide)
    ⟨⟨1, 1, 7, 5, none⟩, by simp, rfl, rfl⟩ (by simp [ReviewsUnique])

/-- C8 counterexample: signup with a missing password (fresh email) and
signup with a missing email both answer 500, not the claimed 400: the
handler validates nothing, so the failure surfaces in the bcrypt call or
the `NOT NULL` insert and is mapped to 500 by the catch block. -/
theorem signup_missing_input_counterexample :
    (signup ⟨[], [], [], 0, 0, 0⟩ 0 (some "a@x.com") none).1.status = 500 ∧
    ¬ (signup ⟨[], [], [], 0, 0, 0⟩ 0 (some "a@x.com") none).1.status = 400 ∧
    (signup ⟨[], [], [], 0, 0, 0⟩ 0 none (some "p1")).1.status = 500 ∧
    ¬ (signup ⟨[], [], [], 0, 0, 0⟩ 0 none (some "p1")).1.status = 400 := by
  decide

/-- C8 amended: signup with a missing email answers 500, and signup with a
missing password and a not-yet-registered email answers 500; neither path
inserts a user, and neither is the 400 of a validation error. -/
theorem signup_missing_input_500 (db : DB) (salt : Nat) (p : Option String)
    (e : String) (hfresh : ∀ u ∈ db.users, u.email ≠ e) :
    (signup db salt none p).1.status = 500 ∧
    (signup db salt none p).2 = db ∧
    (signup db salt (some e) none).1.status = 500 ∧
    (signup db salt (some e) none).2 = db := by
  have hdup : db.users.any (fun u => u.email == e) = false := by
    rw [List.any_eq_false]
    intro u hu
    simpa using hfresh u hu
  refine ⟨?_, ?_, ?_, ?_⟩
  · cases p <;> rfl
  · cases p <;> rfl
  · simp [signup, hdup]
  · simp [signup, hdup]

/-- Closed instance of `signup_missing_input_500` on the empty store. -/
theorem signup_missing_input_500_witness :
    (signup ⟨[], [], [], 0, 0, 0⟩ 0 none (some "p1")).1.status = 500 ∧
    (signup ⟨[], [], [], 0, 0, 0⟩ 0 none (some "p1")).2 =
      ⟨[], [], [], 0, 0, 0⟩ ∧
    (signup ⟨[], [], [], 0, 0, 0⟩ 0 (some "a@x.com") none).1.status = 500 ∧
    (signup ⟨[], [], [], 0, 0, 0⟩ 0 (some "a@x.com") none).2 =
      ⟨[], [], [], 0, 0, 0⟩ :=
  signup_missing_input_500 ⟨[], [], [], 0, 0, 0⟩ 0 (some "p1") "a@x.com"
    (by simp)

/-- C10: every token issued at login and at refresh carries only the email
claim in its payload — in particular no `id` claim — while the protected
review-creation handler populates the inserted row's `user_id` from the
authenticated request identity (`req.user.id`). -/
theorem tokens_carry_only_email (db db2 db3 : DB) (secret : String)
    (now now2 : Nat) (e p : String) (u : User)
    (cookie : Option Token) (tok2 : Token)
    (bookId userId rating : Nat) (comment : Option String)
    (hfind : findByEmail db.users e = some u)
    (hok : bcryptCompare p u.password = true)
    (h2 : (refreshToken db2 secret now2 cookie).1.accessToken = some tok2)
    (hr1 : 1 ≤ rating) (hr5 : rating ≤ 5)
    (hbook : db3.books.any (fun b => b.id == bookId) = true)
    (hnodup : db3.reviews.any
      (fun r => r.book_id == bookId && r.user_id == userId) = false) :
    (∃ tok rtok,
      (login db secret now (some e) (some p)).1.accessToken = some tok ∧
      (login db secret now (some e) (some p)).1.setCookie = some rtok ∧
      (∀ kv ∈ tok.payload, kv.1 = "email") ∧
      lookupKey "id" tok.payload = none ∧
      (∀ kv ∈ rtok.payload, kv.1 = "email") ∧
      lookupKey "id" rtok.payload = none) ∧
    ((∀ kv ∈ tok2.payload, kv.1 = "email") ∧
      lookupKey "id" tok2.payload = none) ∧
    (postReview db3 bookId userId rating comment).2.reviews =
      db3.reviews ++ [⟨db3.nextReviewId, bookId, userId, rating, comment⟩] := by
  refine ⟨?_, ?_, ?_⟩
  · refine ⟨jwtSign [("email", e)] secret now 60,
      jwtSign [("email", e)] secret now (7 * 24 * 60 * 60),
      ?_, ?_, ?_, ?_, ?_, ?_⟩
    · simp [login, hfind, hok]
    · simp [login, hfind, hok]
    · simp [jwtSign]
    · simp [jwtSign, lookupKey]
    · simp [jwtSign]
    · simp [jwtSign, lookupKey]
  · cases cookie with
    | none => exact absurd h2 (by simp [refreshToken])
    | some t =>
      cases hv : jwtVerify t secret now2 with
      | none => exact absurd h2 (by simp [refreshToken, hv])
      | some decoded =>
        have htok : tok2.payload = match lookupKey "email" decoded with
            | some em => [("email", em)]
            | none => ([] : List (String × String)) := by
          have := h2
          simp only [refreshToken, hv] at this
          cases this
          rfl
        cases hl : lookupKey "email" decoded with
        | none =>
          rw [hl] at htok
          simp [htok, lookupKey]
        | some em =>
          rw [hl] at htok
          simp [htok, lookupKey]
  · have g1 : ¬ rating < 1 := by omega
    have g2 : ¬ 5 < rating := by omega
    simp [postReview, g1, g2, hbook, hnodup]

/-- Closed instance of `tokens_carry_only_email` at concrete stores, a
concrete refresh exchange and a concrete review submission. -/
theorem tokens_carry_only_email_witness :
    (∃ tok rtok,
      (login ⟨[⟨1, "a@x.com", ⟨"p1", 0⟩⟩], [], [], 2, 0, 0⟩ "s" 100
          (some "a@x.com") (some "p1")).1.accessToken = some tok ∧
      (login ⟨[⟨1, "a@x.com", ⟨"p1", 0⟩⟩], [], [], 2, 0, 0⟩ "s" 100
          (some "a@x.com") (some "p1")).1.setCookie = some rtok ∧
      (∀ kv ∈ tok.payload, kv.1 = "email") ∧
      lookupKey "id" tok.payload = none ∧
      (∀ kv ∈ rtok.payload, kv.1 = "email") ∧
      lookupKey "id" rtok.payload = none) ∧
    ((∀ kv ∈ (Token.mk [("email", "a@x.com")] 63 "s").payload,
        kv.1 = "email") ∧
      lookupKey "id" (Token.mk [("email", "a@x.com")] 63 "s").payload
        = none) ∧
    (postReview ⟨[], [⟨1, "T", "A", none, none⟩], [], 0, 2, 1⟩ 1 7 4
        none).2.reviews = [] ++ [⟨1, 1, 7, 4, none⟩] :=
  tokens_carry_only_email ⟨[⟨1, "a@x.com", ⟨"p1", 0⟩⟩], [], [], 2, 0, 0⟩
    ⟨[], [], [], 0, 0, 0⟩ ⟨[], [⟨1, "T", "A", none, none⟩], [], 0, 2, 1⟩
    "s" 100 3 "a@x.com" "p1" ⟨1, "a@x.com", ⟨"p1", 0⟩⟩
    (some ⟨[("email", "a@x.com")], 10, "s"⟩) ⟨[("email", "a@x.com")], 63, "s"⟩
    1 7 4 none (by decide) (by decide) (by decide) (by decide) (by decide)
    (by decide) (by decide)

end BookReviewApi
